import Mathlib

/-!
Verification of the data-aggregation core of `stormgate_dashboard.py`.

The dashboard's core is embedded shallowly: pandas dataframes become lists of
records, pandas/`re` primitives become explicit Lean functions with the same
observable behaviour, and the Streamlit session-state updates of the upload
handler become an explicit state-transition function.  Missing values (pandas
`NaN`) are modelled with `Option`.
-/

namespace Stormgate

/-- The character class `[A-Za-z0-9_]` of the composition regex
`([A-Za-z0-9_]+)(?:\([^)]*\))?` in `extract_ids_from_composition`. -/
def isWordChar (c : Char) : Bool :=
  c.isAlphanum || c = '_'

/-- The whitespace class stripped by Python `str.strip()`:
space, tab, newline, carriage return, vertical tab, form feed. -/
def isSpaceChar (c : Char) : Bool :=
  c = ' ' || c = '\t' || c = '\n' || c = '\r' || c = Char.ofNat 11 || c = Char.ofNat 12

/-- Python `str.strip()` on a character list: drop whitespace from both ends. -/
def pyStrip (cs : List Char) : List Char :=
  ((cs.dropWhile isSpaceChar).reverse.dropWhile isSpaceChar).reverse

/-- Python `str.split('-')` on a character list.  `"".split('-') = ['']` and
`"A--B".split('-') = ['A', '', 'B']`, i.e. the result always has one more
entry than the number of separators. -/
def splitOnDash : List Char → List (List Char)
  | [] => [[]]
  | c :: rest =>
    if c = '-' then [] :: splitOnDash rest
    else
      match splitOnDash rest with
      | [] => [[c]]
      | t :: ts => (c :: t) :: ts

/-- `extract_structure_ids` (source lines 272-278): on a missing value
(`pd.isna`) return `[]`; otherwise split on `'-'`, strip each token and keep
the non-empty stripped tokens, in order. -/
def extract_structure_ids (opening_str : Option String) : List String :=
  match opening_str with
  | none => []
  | some s =>
    ((splitOnDash s.data).map pyStrip).filterMap
      (fun t => if t = [] then none else some (String.mk t))

/-- One step of the optional group `(?:\([^)]*\))?` of the composition regex:
if the input starts with `'('` and a `')'` occurs later, consume up to and
including the first `')'`; otherwise the optional group matches nothing and
the input is unchanged. -/
def skipParen : List Char → List Char
  | '(' :: rest =>
    match rest.dropWhile (fun c => !(c = ')')) with
    | ')' :: rest2 => rest2
    | _ => '(' :: rest
  | cs => cs

/-- `re.findall` of the pattern `([A-Za-z0-9_]+)(?:\([^)]*\))?`: scan left to
right; at each maximal run of word characters emit the run as a match (its
capture group) and skip a directly following parenthesized suffix; skip any
other character.  The fuel argument bounds the recursion by the input length;
each recursive call strictly shortens the input, so `fuel = cs.length` is
always sufficient. -/
def scanIdsAux : Nat → List Char → List (List Char)
  | _, [] => []
  | 0, _ => []
  | fuel + 1, c :: rest =>
    if isWordChar c then
      (c :: rest.takeWhile isWordChar) ::
        scanIdsAux fuel (skipParen (rest.dropWhile isWordChar))
    else
      scanIdsAux fuel rest

/-- The token scan of the composition regex, with enough fuel. -/
def scanIds (cs : List Char) : List (List Char) :=
  scanIdsAux cs.length cs

/-- `extract_ids_from_composition` (source lines 262-269): `[]` on a missing
value, otherwise `re.findall(r'([A-Za-z0-9_]+)(?:\([^)]*\))?', comp_str)`. -/
def extract_ids_from_composition (comp_str : Option String) : List String :=
  match comp_str with
  | none => []
  | some s => (scanIds s.data).map String.mk

/-- One raw CSV row, with the columns the dashboard reads.  A field is `none`
when the cell is missing (`NaN`). -/
structure RawRecord where
  outcome : Option String
  match_up : Option String
  league_before : Option String
  opponent_league_before : Option String
  map_name : Option String
  first_3_structures : Option String
  first_4_structures : Option String
  first_5_structures : Option String
  first_6_structures : Option String
  units_2 : Option String
  units_3 : Option String
  units_4 : Option String
  units_comp : Option String
deriving DecidableEq, Repr, Inhabited

/-- A normalized row after `load_data`: the raw columns plus the derived
columns `win`, `race`, `opponent_race`. -/
structure MatchRecord extends RawRecord where
  win : Nat
  race : Option Char
  opponent_race : Option Char
deriving DecidableEq, Repr

/-- The per-row normalization of `load_data` (source lines 296-306):
`win = 1 if outcome == 'win' else 0`; `race = match_up.str[0]` and
`opponent_race = match_up.str[2]` (pandas `.str[i]` yields `NaN` when the
value is missing or too short, modelled by `Option`). -/
def loadRecord (r : RawRecord) : MatchRecord :=
  { toRawRecord := r
    win := if r.outcome = some "win" then 1 else 0
    race := r.match_up.bind (fun s => s.data[0]?)
    opponent_race := r.match_up.bind (fun s => s.data[2]?) }

/-- `load_data` on a whole table: normalize every row. -/
def load_data (rows : List RawRecord) : List MatchRecord :=
  rows.map loadRecord

/-- The four selection sets of `st.session_state.filters`: the lists handed to
the four `isin` calls.  Values mirror the column types (`unique()` can include
the missing value, and pandas `isin` matches it). -/
structure FilterSelection where
  races : List (Option Char)
  opponents : List (Option Char)
  leagues : List (Option String)
  opponent_leagues : List (Option String)
deriving DecidableEq, Repr

/-- The row predicate of the filter expression (source lines 434-439): the
conjunction of the four `isin` membership tests. -/
def rowPasses (filters : FilterSelection) (r : MatchRecord) : Bool :=
  decide (r.race ∈ filters.races) &&
  decide (r.opponent_race ∈ filters.opponents) &&
  decide (r.league_before ∈ filters.leagues) &&
  decide (r.opponent_league_before ∈ filters.opponent_leagues)

/-- `st.session_state.filtered_df` (source lines 434-439): boolean-mask
selection, keeping rows that pass all four tests, in order. -/
def filtered_df (df : List MatchRecord) (filters : FilterSelection) : List MatchRecord :=
  df.filter (rowPasses filters)

/-- The default filter selection (source lines 319-322 and 371-374): each
dimension set to `unique()` of its column over the loaded dataframe. -/
def defaultFilters (df : List MatchRecord) : FilterSelection :=
  { races := (df.map (·.race)).dedup
    opponents := (df.map (·.opponent_race)).dedup
    leagues := (df.map (·.league_before)).dedup
    opponent_leagues := (df.map (·.opponent_league_before)).dedup }

/-- The rows of one `groupby` group: the rows whose grouping field equals
`some k`.  Rows with a missing grouping value belong to no group (pandas
`groupby` drops `NaN` keys). -/
def groupRows (key : MatchRecord → Option String) (k : String)
    (df : List MatchRecord) : List MatchRecord :=
  df.filter (fun r => decide (key r = some k))

/-- The `'win'` sum of a group of rows (all `win` values are 0 or 1). -/
def sumWins (g : List MatchRecord) : Nat :=
  (g.map (·.win)).sum

/-- The win-rate aggregation pattern
`groupby(col)['win'].agg(['mean', 'count'])` followed by
`[count >= minSamples]`: one row per distinct non-missing key, carrying the
exact mean of `win` over the group (`wins / count` as a rational) and the
group size; groups below the threshold are dropped after the mean is computed.
The mean is written with the normalizing constructor `mkRat` (equal to `/` on
`ℚ`, see `mkRat_natCast_eq_div` below) so that concrete aggregates evaluate.
Pandas sorts the group keys; key order is irrelevant to the claims, so the
keys are listed in first-appearance order. -/
def winRateAgg (key : MatchRecord → Option String) (minSamples : Nat)
    (df : List MatchRecord) : List (String × ℚ × ℕ) :=
  (df.filterMap key).dedup.filterMap (fun k =>
    if minSamples ≤ (groupRows key k df).length then
      some (k, mkRat (sumWins (groupRows key k df)) (groupRows key k df).length,
        (groupRows key k df).length)
    else none)

/-- `match_up_win_rate` (source lines 475-477): threshold 5. -/
def match_up_win_rate (df : List MatchRecord) : List (String × ℚ × ℕ) :=
  winRateAgg (·.match_up) 5 df

/-- `league_win_rate` (source lines 498-500): threshold 5. -/
def league_win_rate (df : List MatchRecord) : List (String × ℚ × ℕ) :=
  winRateAgg (·.league_before) 5 df

/-- `opponent_league_win_rate` (source lines 521-523): threshold 5. -/
def opponent_league_win_rate (df : List MatchRecord) : List (String × ℚ × ℕ) :=
  winRateAgg (·.opponent_league_before) 5 df

/-- `map_win_rates` (source lines 936-938): threshold 5. -/
def map_win_rates (df : List MatchRecord) : List (String × ℚ × ℕ) :=
  winRateAgg (·.map_name) 5 df

/-- The four values of the opening-structure selectbox (source line 660-667),
picking the column `first_{3..6}_structures`. -/
inductive StructureCount where
  | three
  | four
  | five
  | six
deriving DecidableEq, Repr

/-- The grouping column chosen by the structure selectbox. -/
def structureCol : StructureCount → MatchRecord → Option String
  | .three => (·.first_3_structures)
  | .four => (·.first_4_structures)
  | .five => (·.first_5_structures)
  | .six => (·.first_6_structures)

/-- `opening_win_rates` (source lines 669-671): the win-rate aggregation over
the selected `first_N_structures` column with threshold `count >= 5`. -/
def opening_win_rates (opt : StructureCount) (df : List MatchRecord) :
    List (String × ℚ × ℕ) :=
  winRateAgg (structureCol opt) 5 df

/-- The three values of the unit-count selectbox (source lines 861-868),
picking the column `units_{2..4}`. -/
inductive UnitCount where
  | two
  | three
  | four
deriving DecidableEq, Repr

/-- The grouping column chosen by the unit-count selectbox. -/
def unitsCol : UnitCount → MatchRecord → Option String
  | .two => (·.units_2)
  | .three => (·.units_3)
  | .four => (·.units_4)

/-- `unit_comp_win_rates` (source lines 870-872): the win-rate aggregation
over the selected `units_N` column with threshold `count >= 3`. -/
def unit_comp_win_rates (opt : UnitCount) (df : List MatchRecord) :
    List (String × ℚ × ℕ) :=
  winRateAgg (unitsCol opt) 3 df

/-- Occurrence counts of the distinct values of a list (the counting core of
both `value_counts` and `collections.Counter`). -/
def countsOf (xs : List String) : List (String × ℕ) :=
  xs.dedup.map (fun k => (k, xs.count k))

/-- Insert into a count-descending list, after the entries with at least as
large a count (stable descending insertion). -/
def insertDescByCount (x : String × ℕ) : List (String × ℕ) → List (String × ℕ)
  | [] => [x]
  | y :: ys => if y.2 < x.2 then x :: y :: ys else y :: insertDescByCount x ys

/-- Sort count entries descending by count (the sort both `value_counts` and
`Counter.most_common` apply before truncation). -/
def sortDescByCount (l : List (String × ℕ)) : List (String × ℕ) :=
  l.foldr insertDescByCount []

/-- `value_counts()` on a column: counts of the distinct non-missing values
(`dropna=True`), sorted descending by count. -/
def value_counts (key : MatchRecord → Option String) (df : List MatchRecord) :
    List (String × ℕ) :=
  sortDescByCount (countsOf (df.filterMap key))

/-- `structure_3_counts` (source line 552):
`filtered_df['first_3_structures'].value_counts().head(10)`. -/
def structure_3_counts (df : List MatchRecord) : List (String × ℕ) :=
  (value_counts (·.first_3_structures) df).take 10

/-- `unit_2_counter` (source lines 732-734):
`Counter(filtered_df['units_2'].dropna().tolist())`. -/
def unit_2_counter (df : List MatchRecord) : List (String × ℕ) :=
  countsOf (df.filterMap (·.units_2))

/-- `top_unit_2` (source line 735): `dict(unit_2_counter.most_common(10))`. -/
def top_unit_2 (df : List MatchRecord) : List (String × ℕ) :=
  (sortDescByCount (unit_2_counter df)).take 10

/-- `all_unit_ids` (source lines 827-830): concatenate the ids parsed from
every non-missing `units_comp` field. -/
def all_unit_ids (df : List MatchRecord) : List String :=
  (df.filterMap (·.units_comp)).flatMap
    (fun s => extract_ids_from_composition (some s))

/-- `top_units` (source lines 832-834):
`dict(Counter(all_unit_ids).most_common(15))`. -/
def top_units (df : List MatchRecord) : List (String × ℕ) :=
  (sortDescByCount (countsOf (all_unit_ids df))).take 15

/-- One entry of `units.json` / `upgrades.json`: the fields the dashboard
reads, each possibly absent from the JSON object. -/
structure EntityData where
  name : Option String
  button_icon_path : Option String
deriving DecidableEq, Repr

/-- A reference table (`units_data` or `upgrades_data`): a mapping from id to
entity record, as an association list (ids are unique keys). -/
abbrev EntityTable := List (String × EntityData)

/-- Python `id in table` followed by `table[id]`. -/
def lookupEntity (t : EntityTable) (id : String) : Option EntityData :=
  t.lookup id

/-- `id in table and 'name' in table[id]`, returning the name on success. -/
def nameIn (t : EntityTable) (id : String) : Option String :=
  (lookupEntity t id).bind (·.name)

/-- `get_unit_name` (source lines 192-195): the unit table's name if present,
else the raw id.  The upgrade table is not consulted. -/
def get_unit_name (units_data : EntityTable) (unit_id : String) : String :=
  match nameIn units_data unit_id with
  | some n => n
  | none => unit_id

/-- `get_structure_name` (source lines 232-237): the unit table's name if
present, else the upgrade table's name if present, else the raw id. -/
def get_structure_name (units_data upgrades_data : EntityTable)
    (structure_id : String) : String :=
  match nameIn units_data structure_id with
  | some n => n
  | none =>
    match nameIn upgrades_data structure_id with
    | some n => n
    | none => structure_id

/-- The icon path a table contributes in `get_unit_icon`: the entry's
`button_icon_path` when the id is in the table, the field is present and the
path is truthy (non-empty). -/
def iconPathIn (t : EntityTable) (id : String) : Option String :=
  match (lookupEntity t id).bind (·.button_icon_path) with
  | some p => if p = "" then none else some p
  | none => none

/-- The pure part of `get_unit_icon` (source lines 164-189): the icon paths it
would attempt to fetch, in order (unit table first, then upgrade table).  An
id contributing no path yields `None` without any fetch. -/
def get_unit_icon_candidates (units_data upgrades_data : EntityTable)
    (unit_id : String) : List String :=
  (iconPathIn units_data unit_id).toList ++ (iconPathIn upgrades_data unit_id).toList

/-- A raw tabular source, abstracted to the only feature the schema behaviour
depends on: which columns are present. -/
structure RawTable where
  cols : List String
deriving DecidableEq, Repr

namespace Schema

/-- Column-level model of `load_data` (source lines 296-306):
`pd.read_csv` succeeds regardless of schema; the first column access is
`df['outcome']` (raises `KeyError` when absent), then `df['match_up']`
(likewise); on success the derived columns are appended.  No other required
column is touched by the load. -/
def load_data (t : RawTable) : Except String RawTable :=
  if "outcome" ∈ t.cols then
    if "match_up" ∈ t.cols then
      Except.ok { cols := t.cols ++ ["win", "race", "opponent_race"] }
    else Except.error "match_up"
  else Except.error "outcome"

/-- The uploaded-file handler (source lines 334-350) as a state transition on
the session dataframe.  Inside one `try` block: `st.session_state.df` is
assigned the loaded dataframe, then the filter domains are rebuilt reading
`df['race']`, `df['opponent_race']` (derived, always present),
`df['league_before']` and `df['opponent_league_before']` (raise `KeyError`
when absent).  Any exception is caught and shown (`Bool` result), but the
assignment to the session dataframe is not rolled back.  Returns the session
dataframe after the handler and whether an error was shown. -/
def uploadedFileHandler (prior : Option RawTable) (raw : RawTable) :
    Option RawTable × Bool :=
  match load_data raw with
  | Except.error _ => (prior, true)
  | Except.ok df =>
    if "league_before" ∈ df.cols then
      if "opponent_league_before" ∈ df.cols then (some df, false)
      else (some df, true)
    else (some df, true)

end Schema

/-! Concrete inputs used by the witnesses, the end-to-end scenarios and the
counterexamples. -/

/-- A raw row with every cell missing. -/
def baseRaw : RawRecord :=
  { outcome := none, match_up := none, league_before := none
    opponent_league_before := none, map_name := none
    first_3_structures := none, first_4_structures := none
    first_5_structures := none, first_6_structures := none
    units_2 := none, units_3 := none, units_4 := none, units_comp := none }

/-- A `ZvP` row with the given outcome. -/
def zvpRaw (o : String) : RawRecord :=
  { baseRaw with
    outcome := some o, match_up := some "ZvP"
    league_before := some "gold", opponent_league_before := some "gold"
    map_name := some "Isle" }

/-- The end-to-end scenario of C2: 8 `ZvP` rows, 5 wins then 3 losses. -/
def zvpRaw8 : List RawRecord :=
  List.replicate 5 (zvpRaw "win") ++ List.replicate 3 (zvpRaw "loss")

/-- A winning row with a fixed `first_3_structures` opening. -/
def openRaw : RawRecord :=
  { baseRaw with
    outcome := some "win", match_up := some "VvI"
    first_3_structures := some "s1-s2-s3" }

/-- Four identical rows of the `s1-s2-s3` opening. -/
def openRecs4 : List MatchRecord :=
  load_data (List.replicate 4 openRaw)

/-- Five identical rows of the `s1-s2-s3` opening. -/
def openRecs5 : List MatchRecord :=
  load_data (List.replicate 5 openRaw)

/-- A winning row with a fixed two-unit composition. -/
def unitRaw : RawRecord :=
  { baseRaw with
    outcome := some "win", match_up := some "VvI"
    units_2 := some "u1-u2" }

/-- Three identical rows of the `u1-u2` composition. -/
def unitRecs3 : List MatchRecord :=
  load_data (List.replicate 3 unitRaw)

/-- A one-row dataset for the filter witnesses. -/
def c1Recs : List MatchRecord :=
  load_data [zvpRaw "win"]

/-- A selection whose race set is empty while the other three dimensions
allow the values occurring in `c1Recs`. -/
def c1EmptyRaceSel : FilterSelection :=
  { races := []
    opponents := [some 'P']
    leagues := [some "gold"]
    opponent_leagues := [some "gold"] }

/-- The record with every raw field missing, normalized. -/
def noneRec : MatchRecord :=
  loadRecord baseRaw

/-- C4 scenario: an empty unit table ... -/
def cexUnits : EntityTable := []

/-- ... next to an upgrade table that names the id `UpgradeX`. -/
def cexUpgrades : EntityTable :=
  [("UpgradeX", { name := some "Shields", button_icon_path := none })]

/-- A previously loaded table, to observe retention on failing loads. -/
def priorTable : RawTable :=
  { cols := ["outcome", "match_up", "old_marker"] }

/-- A table with every required column except `map_name`. -/
def missingMapTable : RawTable :=
  { cols := ["outcome", "match_up", "league_before", "opponent_league_before",
             "first_3_structures", "units_2", "units_comp"] }

/-- A table with every required column except `league_before`. -/
def missingLeagueTable : RawTable :=
  { cols := ["outcome", "match_up", "opponent_league_before", "map_name"] }

/-! Helper lemmas. -/

/-- `mkRat` is exact division on `ℚ`: the win rate stored by `winRateAgg` is
the unrounded quotient `wins / count`. -/
theorem mkRat_natCast_eq_div (a d : ℕ) : mkRat (a : ℤ) d = (a : ℚ) / (d : ℚ) := by
  rw [Rat.mkRat_eq_divInt, Rat.divInt_eq_div]
  push_cast
  ring

/-- Splitting a separator-only string yields only empty tokens. -/
theorem splitOnDash_replicate (n : Nat) :
    splitOnDash (List.replicate n '-') = List.replicate (n + 1) [] := by
  induction n with
  | zero => rfl
  | succ n ih => simp [List.replicate_succ, splitOnDash, ih]

/-- A group is non-empty exactly when some row carries its key. -/
theorem groupRows_ne_nil_iff (key : MatchRecord → Option String) (k : String)
    (df : List MatchRecord) :
    groupRows key k df ≠ [] ↔ ∃ r ∈ df, key r = some k := by
  unfold groupRows
  rw [ne_eq, List.filter_eq_nil_iff]
  push_neg
  simp only [decide_eq_true_eq]

/-- Membership characterization of the win-rate aggregation: an aggregate row
for key `k` exists exactly when some record carries `k`, its count is the
group size, the count passes the threshold, and the rate is the exact mean of
`win` over the group. -/
theorem mem_winRateAgg_iff (key : MatchRecord → Option String) (m : Nat)
    (df : List MatchRecord) (k : String) (q : ℚ) (c : ℕ) :
    (k, q, c) ∈ winRateAgg key m df ↔
      (∃ r ∈ df, key r = some k) ∧ c = (groupRows key k df).length ∧ m ≤ c ∧
        q = mkRat (sumWins (groupRows key k df)) c := by
  unfold winRateAgg
  rw [List.mem_filterMap]
  constructor
  · rintro ⟨k2, hk2, hsome⟩
    rw [List.mem_dedup, List.mem_filterMap] at hk2
    split at hsome
    · rename_i hle
      simp only [Option.some.injEq, Prod.mk.injEq] at hsome
      obtain ⟨rfl, hq, hc⟩ := hsome
      subst hc
      exact ⟨hk2, rfl, hle, hq.symm⟩
    · exact Option.noConfusion hsome
  · rintro ⟨hex, hc, hm, hq⟩
    subst hc
    refine ⟨k, ?_, ?_⟩
    · rw [List.mem_dedup, List.mem_filterMap]
      exact hex
    · rw [if_pos hm, hq]

/-! Claim theorems. -/

/-- C5: the composition parser maps `"A(3)-B(1)-C(2)"` to `["A", "B", "C"]`
(counts stripped and discarded, order preserved), and maps both the empty
string and a missing field to `[]` without error. -/
theorem composition_roundtrip :
    extract_ids_from_composition (some "A(3)-B(1)-C(2)") = ["A", "B", "C"] ∧
    extract_ids_from_composition (some "") = [] ∧
    extract_ids_from_composition none = [] :=
  ⟨by decide, by decide, rfl⟩

/-- C6: the structure-sequence parser splits on `-`, trims whitespace, drops
empty tokens and preserves order: `"A-B-C"` gives `["A", "B", "C"]`,
`"A--B"` gives `["A", "B"]`, and an empty, missing or separator-only field
gives `[]`, never an error. -/
theorem structure_sequence_parse :
    extract_structure_ids (some "A-B-C") = ["A", "B", "C"] ∧
    extract_structure_ids (some "A--B") = ["A", "B"] ∧
    extract_structure_ids (some " A - -B ") = ["A", "B"] ∧
    extract_structure_ids (some "") = [] ∧
    extract_structure_ids none = [] ∧
    ∀ n : Nat, extract_structure_ids (some (String.mk (List.replicate n '-'))) = [] := by
  refine ⟨by decide, by decide, by decide, by decide, rfl, ?_⟩
  intro n
  show ((splitOnDash (List.replicate n '-')).map pyStrip).filterMap _ = []
  rw [splitOnDash_replicate, List.map_replicate]
  rw [List.filterMap_eq_nil_iff]
  intro a ha
  have h : a = pyStrip [] := List.eq_of_mem_replicate ha
  subst h
  rfl

/-- C7: the derived fields are pure functions of their sources: `win` is 1
exactly on outcome `"win"` and 0 otherwise (no third value), and for a
`match_up` of length at least 3, `race` is its character 0 and
`opponent_race` its character 2. -/
theorem derived_fields_pure :
    (∀ raw : RawRecord,
        ((loadRecord raw).win = 1 ↔ raw.outcome = some "win") ∧
        ((loadRecord raw).win = 1 ∨ (loadRecord raw).win = 0)) ∧
    (∀ (raw : RawRecord) (a b c : Char) (rest : List Char),
        raw.match_up = some (String.mk (a :: b :: c :: rest)) →
          (loadRecord raw).race = some a ∧
          (loadRecord raw).opponent_race = some c) := by
  constructor
  · intro raw
    constructor
    · unfold loadRecord
      by_cases h : raw.outcome = some "win" <;> simp [h]
    · unfold loadRecord
      by_cases h : raw.outcome = some "win" <;> simp [h]
  · intro raw a b c rest h
    unfold loadRecord
    simp [h]

/-- Witness for C7 at the concrete match-up `"ZvP"`. -/
theorem derived_fields_pure_witness :
    (loadRecord (zvpRaw "win")).race = some 'Z' ∧
    (loadRecord (zvpRaw "win")).opponent_race = some 'P' :=
  derived_fields_pure.2 (zvpRaw "win") 'Z' 'v' 'P' [] (by decide)

/-- C1: the filter is a pure conjunction of the four set-membership tests — a
record is in the output iff it is in the input and each of its four fields is
in the corresponding selection set — and an empty selection set on any
dimension yields an empty result. -/
theorem filter_conjunction_and_empty_selection :
    (∀ (df : List MatchRecord) (filters : FilterSelection) (r : MatchRecord),
        r ∈ filtered_df df filters ↔
          r ∈ df ∧ r.race ∈ filters.races ∧ r.opponent_race ∈ filters.opponents ∧
            r.league_before ∈ filters.leagues ∧
            r.opponent_league_before ∈ filters.opponent_leagues) ∧
    (∀ (df : List MatchRecord) (filters : FilterSelection),
        filters.races = [] ∨ filters.opponents = [] ∨ filters.leagues = [] ∨
          filters.opponent_leagues = [] →
        filtered_df df filters = []) := by
  constructor
  · intro df filters r
    simp [filtered_df, rowPasses, List.mem_filter, and_assoc]
  · intro df filters h
    rw [filtered_df, List.filter_eq_nil_iff]
    intro r hr
    rcases h with h | h | h | h <;> simp [rowPasses, h]

/-- Witness for C1: one record, an empty race selection, empty output. -/
theorem filter_empty_selection_witness :
    filtered_df c1Recs c1EmptyRaceSel = [] :=
  filter_conjunction_and_empty_selection.2 c1Recs c1EmptyRaceSel (Or.inl rfl)

/-- C8: the filter is idempotent, and filtering with the full-domain
selection (the `unique()` values of every dimension) returns the record set
unchanged, order included. -/
theorem filter_idempotent_full_domain :
    (∀ (df : List MatchRecord) (filters : FilterSelection),
        filtered_df (filtered_df df filters) filters = filtered_df df filters) ∧
    (∀ df : List MatchRecord, filtered_df df (defaultFilters df) = df) := by
  constructor
  · intro df filters
    exact List.filter_eq_self.mpr (fun r hr => List.of_mem_filter hr)
  · intro df
    apply List.filter_eq_self.mpr
    intro r hr
    simp only [rowPasses, defaultFilters, Bool.and_eq_true, decide_eq_true_eq,
      List.mem_dedup, List.mem_map]
    exact ⟨⟨⟨⟨r, hr, rfl⟩, ⟨r, hr, rfl⟩⟩, ⟨r, hr, rfl⟩⟩, ⟨r, hr, rfl⟩⟩

/-- C2: every aggregate row's rate is exactly `wins / count` over its own
group with the threshold applied only after the mean (rows of other groups
never affect it), and the 8-record `ZvP` scenario (5 wins, 3 losses,
threshold 5) yields the single row `("ZvP", 0.625, 8)`. -/
theorem win_rate_exact_and_threshold_after_mean :
    (∀ (key : MatchRecord → Option String) (m : Nat) (df : List MatchRecord)
        (k : String) (q : ℚ) (c : ℕ),
        (k, q, c) ∈ winRateAgg key m df →
          c = (groupRows key k df).length ∧ m ≤ c ∧
            q = (sumWins (groupRows key k df) : ℚ) / (c : ℚ)) ∧
    (∀ (key : MatchRecord → Option String) (m : Nat) (df1 df2 : List MatchRecord)
        (k : String) (q : ℚ) (c : ℕ),
        groupRows key k df1 = groupRows key k df2 →
          ((k, q, c) ∈ winRateAgg key m df1 ↔ (k, q, c) ∈ winRateAgg key m df2)) ∧
    match_up_win_rate (load_data zvpRaw8) = [("ZvP", mkRat 5 8, 8)] ∧
    (mkRat 5 8 : ℚ) = 0.625 := by
  refine ⟨?_, ?_, by decide, by norm_num⟩
  · intro key m df k q c hmem
    obtain ⟨hex, hc, hm, hq⟩ := (mem_winRateAgg_iff key m df k q c).mp hmem
    refine ⟨hc, hm, ?_⟩
    rw [hq]
    exact mkRat_natCast_eq_div _ _
  · intro key m df1 df2 k q c h
    rw [mem_winRateAgg_iff, mem_winRateAgg_iff, ← groupRows_ne_nil_iff,
      ← groupRows_ne_nil_iff, h]

/-- Witness for C2 at the `ZvP` scenario. -/
theorem win_rate_exact_witness :
    8 = (groupRows (·.match_up) "ZvP" (load_data zvpRaw8)).length ∧ 5 ≤ 8 ∧
      (mkRat 5 8 : ℚ) =
        (sumWins (groupRows (·.match_up) "ZvP" (load_data zvpRaw8)) : ℚ) / (8 : ℚ) :=
  win_rate_exact_and_threshold_after_mean.1 (·.match_up) 5 (load_data zvpRaw8)
    "ZvP" (mkRat 5 8) 8 (by decide)

/-- C3 counterexample: the opening-structure win-rate view does not use
threshold 3 — a `first_3_structures` group with 4 rows (which threshold 3
would keep) is absent from its output. -/
theorem opening_threshold_counterexample :
    (groupRows (structureCol StructureCount.three) "s1-s2-s3" openRecs4).length = 4 ∧
    opening_win_rates StructureCount.three openRecs4 = [] :=
  ⟨by decide, by decide⟩

/-- C3 amended: the minimum-sample thresholds are 5 for the match-up, league,
opponent-league and map win-rate views AND for the opening-structure-sequence
win-rate view; only the unit-composition (units_2/3/4) win-rate view uses 3.
The bounds are tight: a 5-row opening group and a 3-row unit group appear. -/
theorem win_rate_view_thresholds :
    (∀ df k q c, (k, q, c) ∈ match_up_win_rate df → 5 ≤ c) ∧
    (∀ df k q c, (k, q, c) ∈ league_win_rate df → 5 ≤ c) ∧
    (∀ df k q c, (k, q, c) ∈ opponent_league_win_rate df → 5 ≤ c) ∧
    (∀ df k q c, (k, q, c) ∈ map_win_rates df → 5 ≤ c) ∧
    (∀ opt df k q c, (k, q, c) ∈ opening_win_rates opt df → 5 ≤ c) ∧
    (∀ opt df k q c, (k, q, c) ∈ unit_comp_win_rates opt df → 3 ≤ c) ∧
    opening_win_rates StructureCount.three openRecs5 = [("s1-s2-s3", 1, 5)] ∧
    unit_comp_win_rates UnitCount.two unitRecs3 = [("u1-u2", 1, 3)] := by
  have base : ∀ (key : MatchRecord → Option String) (m : Nat)
      (df : List MatchRecord) (k : String) (q : ℚ) (c : ℕ),
      (k, q, c) ∈ winRateAgg key m df → m ≤ c :=
    fun key m df k q c h => ((mem_winRateAgg_iff key m df k q c).mp h).2.2.1
  exact ⟨fun df k q c h => base _ 5 df k q c h,
    fun df k q c h => base _ 5 df k q c h,
    fun df k q c h => base _ 5 df k q c h,
    fun df k q c h => base _ 5 df k q c h,
    fun opt df k q c h => base _ 5 df k q c h,
    fun opt df k q c h => base _ 3 df k q c h,
    by decide, by decide⟩

/-- Witness for C3's amended thresholds at the tight concrete groups. -/
theorem win_rate_view_thresholds_witness : 5 ≤ 5 ∧ 3 ≤ 3 :=
  ⟨win_rate_view_thresholds.2.2.2.2.1 StructureCount.three openRecs5
      "s1-s2-s3" 1 5 (by decide),
    win_rate_view_thresholds.2.2.2.2.2.1 UnitCount.two unitRecs3
      "u1-u2" 1 3 (by decide)⟩

/-- C10: a record whose grouping field is missing is silently excluded from
every aggregate over that field — it forms no group and changes neither the
win-rate aggregations, nor the `value_counts` frequency ranking, nor the
unit-combination counter, nor the full-composition counter. -/
theorem missing_key_excluded (df : List MatchRecord) (r : MatchRecord) :
    (∀ (key : MatchRecord → Option String) (m : Nat), key r = none →
        winRateAgg key m (r :: df) = winRateAgg key m df) ∧
    (r.first_3_structures = none →
        structure_3_counts (r :: df) = structure_3_counts df) ∧
    (r.units_2 = none → unit_2_counter (r :: df) = unit_2_counter df ∧
        top_unit_2 (r :: df) = top_unit_2 df) ∧
    (r.units_comp = none → all_unit_ids (r :: df) = all_unit_ids df ∧
        top_units (r :: df) = top_units df) := by
  refine ⟨?_, ?_, ?_, ?_⟩
  · intro key m h
    have hg : ∀ k, groupRows key k (r :: df) = groupRows key k df := by
      intro k
      unfold groupRows
      rw [List.filter_cons_of_neg]
      simp [h]
    unfold winRateAgg
    have hfm : List.filterMap key (r :: df) = List.filterMap key df :=
      List.filterMap_cons_none h
    rw [hfm]
    simp only [hg]
  · intro h
    have hfm : List.filterMap (fun x => x.first_3_structures) (r :: df) =
        List.filterMap (fun x => x.first_3_structures) df :=
      List.filterMap_cons_none h
    unfold structure_3_counts value_counts
    rw [hfm]
  · intro h
    have hfm : List.filterMap (fun x => x.units_2) (r :: df) =
        List.filterMap (fun x => x.units_2) df :=
      List.filterMap_cons_none h
    constructor
    · unfold unit_2_counter
      rw [hfm]
    · unfold top_unit_2 unit_2_counter
      rw [hfm]
  · intro h
    have hfm : List.filterMap (fun x => x.units_comp) (r :: df) =
        List.filterMap (fun x => x.units_comp) df :=
      List.filterMap_cons_none h
    constructor
    · unfold all_unit_ids
      rw [hfm]
    · unfold top_units all_unit_ids
      rw [hfm]

/-- Witness for C10: prepending the all-missing record changes nothing. -/
theorem missing_key_excluded_witness :
    winRateAgg (·.match_up) 5 (noneRec :: c1Recs) = winRateAgg (·.match_up) 5 c1Recs ∧
    structure_3_counts (noneRec :: c1Recs) = structure_3_counts c1Recs ∧
    (unit_2_counter (noneRec :: c1Recs) = unit_2_counter c1Recs ∧
      top_unit_2 (noneRec :: c1Recs) = top_unit_2 c1Recs) ∧
    (all_unit_ids (noneRec :: c1Recs) = all_unit_ids c1Recs ∧
      top_units (noneRec :: c1Recs) = top_units c1Recs) :=
  ⟨(missing_key_excluded c1Recs noneRec).1 _ 5 rfl,
    (missing_key_excluded c1Recs noneRec).2.1 rfl,
    (missing_key_excluded c1Recs noneRec).2.2.1 rfl,
    (missing_key_excluded c1Recs noneRec).2.2.2 rfl⟩

/-- C4 counterexample: unit-name resolution does not consult the upgrade
table — for an id present only in the upgrade table (with name `"Shields"`),
`get_unit_name` returns the raw id while `get_structure_name` (which does
consult both tables) returns the upgrade's name. -/
theorem unit_name_skips_upgrade_table :
    get_unit_name cexUnits "UpgradeX" = "UpgradeX" ∧
    nameIn cexUpgrades "UpgradeX" = some "Shields" ∧
    get_structure_name cexUnits cexUpgrades "UpgradeX" = "Shields" ∧
    "UpgradeX" ≠ "Shields" := by
  decide

/-- C4 amended: `get_structure_name` consults the unit table first and then
the upgrade table (first hit wins); `get_unit_name` consults only the unit
table; in both, an id absent from the consulted tables resolves to the raw id
string and yields no icon-path candidate; resolution is total (never
raises). -/
theorem name_resolution_fallback :
    (∀ (units_data upgrades_data : EntityTable) (id n : String),
        nameIn units_data id = some n →
          get_unit_name units_data id = n ∧
          get_structure_name units_data upgrades_data id = n) ∧
    (∀ (units_data upgrades_data : EntityTable) (id n : String),
        nameIn units_data id = none → nameIn upgrades_data id = some n →
          get_structure_name units_data upgrades_data id = n) ∧
    (∀ (units_data : EntityTable) (id : String),
        nameIn units_data id = none → get_unit_name units_data id = id) ∧
    (∀ (units_data upgrades_data : EntityTable) (id : String),
        lookupEntity units_data id = none → lookupEntity upgrades_data id = none →
          get_unit_name units_data id = id ∧
          get_structure_name units_data upgrades_data id = id ∧
          get_unit_icon_candidates units_data upgrades_data id = []) := by
  refine ⟨?_, ?_, ?_, ?_⟩
  · intro units_data upgrades_data id n h
    constructor
    · unfold get_unit_name
      rw [h]
    · unfold get_structure_name
      rw [h]
  · intro units_data upgrades_data id n h1 h2
    unfold get_structure_name
    rw [h1, h2]
  · intro units_data id h
    unfold get_unit_name
    rw [h]
  · intro units_data upgrades_data id h1 h2
    refine ⟨?_, ?_, ?_⟩
    · unfold get_unit_name nameIn
      rw [h1]
      rfl
    · unfold get_structure_name nameIn
      rw [h1, h2]
      rfl
    · unfold get_unit_icon_candidates iconPathIn
      rw [h1, h2]
      rfl

/-- Witness for C4's amended fallback at an id in neither table. -/
theorem name_resolution_fallback_witness :
    get_unit_name cexUnits "Phantom" = "Phantom" ∧
    get_structure_name cexUnits cexUpgrades "Phantom" = "Phantom" ∧
    get_unit_icon_candidates cexUnits cexUpgrades "Phantom" = [] :=
  name_resolution_fallback.2.2.2 cexUnits cexUpgrades "Phantom" rfl (by decide)

/-- C9 counterexample: a source missing only `map_name` loads with no error
and replaces the prior dataset, and a source missing `league_before` shows an
error yet still replaces the prior dataset (the load is not atomic). -/
theorem missing_columns_counterexample :
    (Schema.uploadedFileHandler (some priorTable) missingMapTable).2 = false ∧
    (Schema.uploadedFileHandler (some priorTable) missingMapTable).1 ≠ some priorTable ∧
    (Schema.uploadedFileHandler (some priorTable) missingLeagueTable).2 = true ∧
    (Schema.uploadedFileHandler (some priorTable) missingLeagueTable).1 ≠ some priorTable := by
  decide

/-- C9 amended: only a missing `outcome` or `match_up` fails the load itself,
atomically retaining the prior dataset; a missing `league_before` or
`opponent_league_before` raises only after the new dataset has already
replaced the prior one; `map_name` is not checked by the load at all. -/
theorem schema_and_retention (prior : Option RawTable) (raw : RawTable) :
    ("outcome" ∉ raw.cols ∨ "match_up" ∉ raw.cols →
        (∃ e, Schema.load_data raw = Except.error e) ∧
        Schema.uploadedFileHandler prior raw = (prior, true)) ∧
    (∀ df, Schema.load_data raw = Except.ok df →
        (("league_before" ∉ raw.cols ∨ "opponent_league_before" ∉ raw.cols) →
            Schema.uploadedFileHandler prior raw = (some df, true)) ∧
        ("league_before" ∈ raw.cols → "opponent_league_before" ∈ raw.cols →
            Schema.uploadedFileHandler prior raw = (some df, false))) ∧
    ((∃ e, Schema.load_data raw = Except.error e) ↔
        ("outcome" ∉ raw.cols ∨ "match_up" ∉ raw.cols)) := by
  by_cases ho : "outcome" ∈ raw.cols
  · by_cases hm : "match_up" ∈ raw.cols
    · have hok : Schema.load_data raw =
          Except.ok { cols := raw.cols ++ ["win", "race", "opponent_race"] } := by
        unfold Schema.load_data
        rw [if_pos ho, if_pos hm]
      refine ⟨?_, ?_, ?_⟩
      · intro h
        rcases h with h | h
        · exact absurd ho h
        · exact absurd hm h
      · intro df hdf
        rw [hok] at hdf
        obtain rfl : { cols := raw.cols ++ ["win", "race", "opponent_race"] : RawTable } = df :=
          (Except.ok.injEq _ _).mp hdf
        have hmem : ∀ s : String, s ≠ "win" → s ≠ "race" → s ≠ "opponent_race" →
            (s ∈ raw.cols ++ ["win", "race", "opponent_race"] ↔ s ∈ raw.cols) := by
          intro s h1 h2 h3
          simp [List.mem_append, h1, h2, h3]
        constructor
        · intro h
          simp only [Schema.uploadedFileHandler, hok]
          rcases h with h | h
          · rw [if_neg]
            simp only [hmem "league_before" (by decide) (by decide) (by decide)]
            exact h
          · by_cases hl : "league_before" ∈ raw.cols
            · rw [if_pos, if_neg]
              · simp only [hmem "opponent_league_before" (by decide) (by decide) (by decide)]
                exact h
              · simp only [hmem "league_before" (by decide) (by decide) (by decide)]
                exact hl
            · rw [if_neg]
              simp only [hmem "league_before" (by decide) (by decide) (by decide)]
              exact hl
        · intro hl hol
          simp only [Schema.uploadedFileHandler, hok]
          rw [if_pos, if_pos]
          · simp only [hmem "opponent_league_before" (by decide) (by decide) (by decide)]
            exact hol
          · simp only [hmem "league_before" (by decide) (by decide) (by decide)]
            exact hl
      · rw [hok]
        simp [ho, hm]
    · have herr : Schema.load_data raw = Except.error "match_up" := by
        unfold Schema.load_data
        rw [if_pos ho, if_neg hm]
      refine ⟨?_, ?_, ?_⟩
      · intro _
        refine ⟨⟨"match_up", herr⟩, ?_⟩
        unfold Schema.uploadedFileHandler
        rw [herr]
      · intro df hdf
        rw [herr] at hdf
        exact Except.noConfusion hdf
      · simp [herr, hm]
  · have herr : Schema.load_data raw = Except.error "outcome" := by
      unfold Schema.load_data
      rw [if_neg ho]
    refine ⟨?_, ?_, ?_⟩
    · intro _
      refine ⟨⟨"outcome", herr⟩, ?_⟩
      unfold Schema.uploadedFileHandler
      rw [herr]
    · intro df hdf
      rw [herr] at hdf
      exact Except.noConfusion hdf
    · simp [herr, ho]

/-- Witness for C9's amended behaviour: missing `outcome` aborts the load and
retains the prior table. -/
theorem schema_and_retention_witness :
    (∃ e, Schema.load_data { cols := ["match_up"] } = Except.error e) ∧
    Schema.uploadedFileHandler (some priorTable) { cols := ["match_up"] } =
      (some priorTable, true) :=
  (schema_and_retention (some priorTable) { cols := ["match_up"] }).1 (Or.inl (by decide))

end Stormgate
